import Mathlib

/-!
Verification of the wsynphot filter-curve and filter-cache layer.

The definitions below are a shallow embedding of the Python sources:
`wsynphot/io/cache_filters.py` (filter cache: download, update, load) and
`wsynphot/base.py` (filter curves, photometric conversions, filter sets).
Python lists become Lean lists, float arithmetic becomes exact arithmetic over
`ℚ` (or `ℝ` where real powers and logarithms are involved), raised exceptions
become `Except` errors, and the on-disk cache becomes explicit state records.
-/

namespace Wsynphot

/-- Python exception classes raised by the embedded code, with their message. -/
inductive PyError where
  | valueError (msg : String)
  | ioError (msg : String)
  | indexError (msg : String)
  | typeError (msg : String)
deriving DecidableEq

/-- The class of a Python exception, forgetting the message. -/
inductive PyErrorKind where
  | value
  | io
  | index
  | type
deriving DecidableEq

/-- Exception class of a raised `PyError`. -/
def PyError.kind : PyError → PyErrorKind
  | .valueError _ => .value
  | .ioError _ => .io
  | .indexError _ => .index
  | .typeError _ => .type

/-! ## Filter identifier grammar

`cache_filters.py` splits a filter id with `re.split('/|\\.', filter_id)`,
accepting `/` and `.` interchangeably as separators. -/

/-- Split a character list at every `/` or `.` (model of `re.split('/|\\.', s)`,
which keeps empty fields). -/
def splitSeps (s : List Char) : List (List Char) :=
  match s with
  | [] => [[]]
  | c :: rest =>
    match splitSeps rest with
    | [] => [[]]
    | g :: gs => if c = '/' ∨ c = '.' then [] :: g :: gs else (c :: g) :: gs

/-- Model of `re.split('/|\\.', filter_id)` on strings. -/
def reSplitId (s : String) : List String :=
  (splitSeps s.toList).map List.asString

/-- Path of the cached transmission votable for a parsed filter id, relative to
the cache directory: `os.path.join(cache_dir, facility, instrument,
'{filter_name}.vot')` with the cache directory left implicit. -/
def filterPath (facility instrument filter_name : String) : String :=
  facility ++ "/" ++ instrument ++ "/" ++ filter_name ++ ".vot"

/-- The root part of `os.path.splitext`: everything before the last dot.
Every path this is applied to ends in `.vot`, so the guard is for totality. -/
def os_path_splitext_root (s : String) : String :=
  if '.' ∈ s.toList then
    ((s.toList.reverse.dropWhile (fun c => ¬ c = '.')).drop 1).reverse.asString
  else s

/-! ## FilterCache reconciliation (`update_filter_data`)

The reconciliation logic in `update_filter_data` manipulates cache entries
purely at the level of file paths (which `.vot` files exist), so the cache
state is modelled as the list of per-filter file paths relative to the cache
directory, in directory-listing order.  Network downloads are modelled as
always succeeding, matching the claim's setting of a reachable archive. -/

/-- On-disk cache state for the reconciliation claims: the relative paths of
the cached per-filter `.vot` files (the glob pattern is `*/*/*.vot`, so the
root index file `svo_index.vot` is never among them). -/
structure CacheState where
  files : List String
deriving DecidableEq

/-- `load_local_filters_index`: the local index is recomputed from the files on
disk; each `facility/instrument/name.vot` path yields the id
`facility/instrument/name` (`os.path.splitext(os.path.relpath(path))[0]`). -/
def load_local_filters_index (cache : CacheState) : List String :=
  cache.files.map os_path_splitext_root

/-- `download_transmission_data`: writes the filter's votable at
`facility/instrument/filter_name.vot` (`to_xml` overwrites, so an existing
path is left in place).  A filter id that does not split into exactly three
components makes the tuple unpacking raise. -/
def download_transmission_data (cache : CacheState) (filter_id : String) :
    Except PyError CacheState :=
  match reSplitId filter_id with
  | [facility, instrument, filter_name] =>
    let p := filterPath facility instrument filter_name
    .ok ⟨if p ∈ cache.files then cache.files else cache.files ++ [p]⟩
  | _ => .error (.valueError "not enough values to unpack")

/-- `iterative_download_transmission_data`: downloads each filter in turn;
any per-filter exception is caught and the id is collected into the returned
failure list instead of aborting the loop. -/
def iterative_download_transmission_data (cache : CacheState)
    (filter_ids : List String) : CacheState × List String :=
  filter_ids.foldl
    (fun acc filter_id =>
      match download_transmission_data acc.1 filter_id with
      | .ok c => (c, acc.2)
      | .error _ => (acc.1, acc.2 ++ [filter_id]))
    (cache, [])

/-- Lexicographic insertion into a sorted list of strings. -/
def insertSortedStr (x : String) : List String → List String
  | [] => [x]
  | y :: ys => if x ≤ y then x :: y :: ys else y :: insertSortedStr x ys

/-- Insertion sort on strings (ascending). -/
def sortStrings : List String → List String
  | [] => []
  | x :: xs => insertSortedStr x (sortStrings xs)

/-- Collapse adjacent duplicates of a sorted list. -/
def dedupAdjacent : List String → List String
  | [] => []
  | [x] => [x]
  | x :: y :: ys =>
    if x = y then dedupAdjacent (y :: ys) else x :: dedupAdjacent (y :: ys)

/-- `np.setdiff1d(a, b)`: the sorted unique values of `a` that are not in `b`. -/
def np_setdiff1d (a b : List String) : List String :=
  dedupAdjacent (sortStrings (a.filter (fun x => ¬ x ∈ b)))

/-- The body of the removal loop of `update_filter_data`: split the id, and
remove the corresponding `.vot` file if it exists. -/
def removeFilterFile (cache : CacheState) (filter_id : String) :
    Except PyError CacheState :=
  match reSplitId filter_id with
  | [facility, instrument, filter_name] =>
    let filter_file := filterPath facility instrument filter_name
    .ok (if filter_file ∈ cache.files then ⟨cache.files.erase filter_file⟩ else cache)
  | _ => .error (.valueError "not enough values to unpack")

/-- The removal loop of `update_filter_data` over `filters_to_remove`
(failures here are not caught and abort the update). -/
def removeFilterFiles (cache : CacheState) (filter_ids : List String) :
    Except PyError CacheState :=
  match filter_ids with
  | [] => .ok cache
  | filter_id :: rest =>
    match removeFilterFile cache filter_id with
    | .ok c => removeFilterFiles c rest
    | .error e => .error e

/-- `update_filter_data`: reconcile the local cache against the freshly
fetched remote SVO index.  `svo_filters_index` is the `filterID` column of the
index just downloaded by `download_svo_filters_index` and re-read by
`load_svo_filters_index` (the ArchiveClient boundary).  The function compares
the local index with the remote one via `np.array_equal`, returns `False` when
they are equal, and otherwise removes `np.setdiff1d(old, new)`, prunes empty
directories (invisible in this path-list model), downloads
`np.setdiff1d(new, old)` and returns `True`. -/
def update_filter_data (cache : CacheState) (svo_filters_index : List String) :
    Except PyError (Bool × CacheState) :=
  let old_filters := load_local_filters_index cache
  let new_filters := svo_filters_index
  if old_filters = new_filters then
    .ok (false, cache)
  else
    let filters_to_remove := np_setdiff1d old_filters new_filters
    match removeFilterFiles cache filters_to_remove with
    | .error e => .error e
    | .ok cache1 =>
      let filters_to_add := np_setdiff1d new_filters old_filters
      let cache2 := (iterative_download_transmission_data cache1 filters_to_add).1
      .ok (true, cache2)

/-- A one-filter remote index in the SVO `filterID` format
(`Facility/Instrument.FilterName`). -/
def svoIndexExample : List String := ["HST/WFPC2.F218W"]

/-- Decidable equality of `Except` results, so concrete runs can be settled
by `decide`. -/
def exceptDecEq {ε α : Type} [DecidableEq ε] [DecidableEq α] :
    (a b : Except ε α) → Decidable (a = b)
  | .error e1, .error e2 =>
    if h : e1 = e2 then isTrue (by rw [h]) else
      isFalse (fun hc => by cases hc; exact h rfl)
  | .error _, .ok _ => isFalse (fun hc => by cases hc)
  | .ok _, .error _ => isFalse (fun hc => by cases hc)
  | .ok a1, .ok a2 =>
    if h : a1 = a2 then isTrue (by rw [h]) else
      isFalse (fun hc => by cases hc; exact h rfl)

instance {ε α : Type} [DecidableEq ε] [DecidableEq α] : DecidableEq (Except ε α) :=
  exceptDecEq

/-! ## Cached filter data and `load_transmission_data`

For the read side of the cache, the state maps each relative file path to the
parsed content of its votable: the two data columns plus the metadata the
code consults (the detector-type field, and the unit recorded on the
`Wavelength` field, which `df_from_votable` drops when converting to a plain
dataframe). -/

/-- Detector type of a filter (`IntEnum`: energy counter `0`,
photon counter `1`). -/
inductive DetectorType where
  | ENERGY_COUNTER
  | PHOTON_COUNTER
deriving DecidableEq

/-- The `IntEnum` value of a detector type. -/
def DetectorType.toNat : DetectorType → Nat
  | .ENERGY_COUNTER => 0
  | .PHOTON_COUNTER => 1

/-- Parsed content of a cached per-filter votable. -/
structure FilterVOTable where
  /-- The `Wavelength` column values. -/
  wavelength : List ℚ
  /-- The `Transmission` column values. -/
  transmission : List ℚ
  /-- The unit attribute recorded on the `Wavelength` field of the votable,
  when the source records one. -/
  wavelengthUnit : Option String
  /-- The `DetectorType` metadata field. -/
  detectorType : DetectorType
deriving DecidableEq

/-- Read-side cache state: the cached votables keyed by relative file path. -/
structure FilterDataCache where
  entries : List (String × FilterVOTable)
deriving DecidableEq

/-- Find the cached votable at a path, if the file exists. -/
def lookupEntry : List (String × FilterVOTable) → String → Option FilterVOTable
  | [], _ => none
  | (k, v) :: rest, key => if k = key then some v else lookupEntry rest key

/-- Error message of `load_transmission_data` for a missing cache file (the
cache-directory placeholder of the original format string is elided). -/
def loadMissingMsg (filter_id : String) : String :=
  "No data found in the cache directory for the requested filter ID: " ++
    filter_id ++ ". Use download_transmission_data() to download it to the cache."

/-- `load_transmission_data`: split the filter id, look for the votable at
`facility/instrument/filter_name.vot`; raise `IOError` if the file is absent,
otherwise return the dataframe columns (the recorded unit is dropped by
`df_from_votable`) together with the detector type. -/
def load_transmission_data (cache : FilterDataCache) (filter_id : String) :
    Except PyError ((List ℚ × List ℚ) × DetectorType) :=
  match reSplitId filter_id with
  | [facility, instrument, filter_name] =>
    let transmission_data_loc := filterPath facility instrument filter_name
    match lookupEntry cache.entries transmission_data_loc with
    | none => .error (.ioError (loadMissingMsg filter_id))
    | some vt => .ok ((vt.wavelength, vt.transmission), vt.detectorType)
  | _ => .error (.valueError "not enough values to unpack")

/-- The exception class produced by a call to `load_transmission_data`, if it
raises. -/
def loadErrorKind (cache : FilterDataCache) (filter_id : String) :
    Option PyErrorKind :=
  match load_transmission_data cache filter_id with
  | .error e => some e.kind
  | .ok _ => none

/-! ## `BaseFilterCurve.load_filter` -/

/-- The filter curve object built by `load_filter` for a given filter id:
wavelength values tagged with the unit chosen by the code, the transmission
values, the detector type and the stored `filter_id`. -/
structure LoadedFilterCurve where
  wavelengthValues : List ℚ
  wavelengthUnit : String
  transmission_lambda : List ℚ
  detector_type : DetectorType
  filter_id : String
deriving DecidableEq

/-- `BaseFilterCurve.load_filter` with a filter id (the `None` branch returns
a listing instead): load the cached transmission data, then build the curve
with `wavelength_unit = 'angstrom'` and the requested `filter_id`. -/
def load_filter (cache : FilterDataCache) (filter_id : String) :
    Except PyError LoadedFilterCurve :=
  match load_transmission_data cache filter_id with
  | .error e => .error e
  | .ok ((wavelengthValues, transmission), detector_type) =>
    let wavelength_unit := "angstrom"
    .ok ⟨wavelengthValues, wavelength_unit, transmission, detector_type, filter_id⟩

/-- A remote index for the error-mode scenario: `Spitzer/IRAC.I2` is listed at
SVO (it appears in the repository's own test data) while `no/such.filter`
does not exist there. -/
def svoRemoteIndexExample : List String := ["Spitzer/IRAC.I2"]

/-! ## Trapezoidal integration and `calculate_wavelength_delta`

`np.trapz(y, x)` over equal-length samples is the sum of
`(x[i+1] - x[i]) * (y[i] + y[i+1]) / 2`; float arithmetic is embedded as
exact arithmetic over `ℚ`. -/

/-- `np.trapz(y, x)`: trapezoidal quadrature of samples `y` over grid `x`. -/
def trapz : List ℚ → List ℚ → ℚ
  | y0 :: y1 :: ys, x0 :: x1 :: xs =>
    (x1 - x0) * (y0 + y1) / 2 + trapz (y1 :: ys) (x1 :: xs)
  | _, _ => 0

/-- Numeric state of a `BaseFilterCurve`: the native wavelength grid and
transmission samples, the detector type, and the scale of the native
wavelength unit (its length expressed in a fixed reference unit, e.g.
`1` for Angstrom and `10` for nanometre), which models the astropy unit
attached to `self.wavelength`. -/
structure BaseFilterCurve where
  wavelength : List ℚ
  transmission_lambda : List ℚ
  detector_type : DetectorType
  unitScale : ℚ
deriving DecidableEq

/-- `BaseFilterCurve.calculate_wavelength_delta`: dispatch on the detector
type; `np.trapz(transmission * wavelength, wavelength)` for a photon counter,
`np.trapz(transmission, wavelength)` for an energy counter. -/
def calculate_wavelength_delta (f : BaseFilterCurve) : ℚ :=
  match f.detector_type with
  | .PHOTON_COUNTER =>
    trapz (List.zipWith (fun t w => t * w) f.transmission_lambda f.wavelength)
      f.wavelength
  | .ENERGY_COUNTER =>
    trapz f.transmission_lambda f.wavelength

/-! ## Interpolation (`scipy.interpolate.interp1d` with `bounds_error=False`,
`fill_value=0.0`, `kind='linear'`)

`interp1d` first sorts the sample points by abscissa (`assume_sorted` defaults
to `False`), then evaluates the piecewise-linear interpolant, returning the
fill value `0.0` for targets below the smallest or above the largest sample
abscissa. -/

/-- Insert a sample point into a list sorted by abscissa. -/
def insertPairByX (p : ℚ × ℚ) : List (ℚ × ℚ) → List (ℚ × ℚ)
  | [] => [p]
  | q :: qs => if p.1 ≤ q.1 then p :: q :: qs else q :: insertPairByX p qs

/-- Sort sample points by abscissa (models the argsort `interp1d` applies when
`assume_sorted=False`). -/
def sortPointsByX : List (ℚ × ℚ) → List (ℚ × ℚ)
  | [] => []
  | p :: ps => insertPairByX p (sortPointsByX ps)

/-- Evaluate the piecewise-linear interpolant through sorted sample points at
a target abscissa already known to lie within range. -/
def evalSegments : List (ℚ × ℚ) → ℚ → ℚ
  | (x0, y0) :: (x1, y1) :: rest, t =>
    if t ≤ x1 then y0 + (y1 - y0) * (t - x0) / (x1 - x0)
    else evalSegments ((x1, y1) :: rest) t
  | _, _ => 0

/-- The interpolation object built in `BaseFilterCurve.__init__`:
`interp1d(wavelength, transmission, kind='linear', bounds_error=False,
fill_value=0.0)` evaluated at a target value. -/
def interp1d (xs ys : List ℚ) (t : ℚ) : ℚ :=
  match sortPointsByX (xs.zip ys) with
  | [] => 0
  | p :: rest =>
    if t < p.1 then 0
    else if (rest.getLastD p).1 < t then 0
    else evalSegments (p :: rest) t

/-- Smallest element of a wavelength grid (`0` for the empty grid, which the
data model excludes). -/
def listMin : List ℚ → ℚ
  | [] => 0
  | x :: xs => xs.foldl min x

/-- Largest element of a wavelength grid (`0` for the empty grid, which the
data model excludes). -/
def listMax : List ℚ → ℚ
  | [] => 0
  | x :: xs => xs.foldl max x

/-- An astropy wavelength quantity: a value and the scale of its unit
(the unit's length expressed in the same fixed reference unit as
`BaseFilterCurve.unitScale`). -/
structure WQuantity where
  value : ℚ
  unitScale : ℚ
deriving DecidableEq

/-- `wavelength.to(self.wavelength.unit)`: the value of the quantity
re-expressed in the curve's native unit. -/
def convertToUnit (w : WQuantity) (nativeScale : ℚ) : ℚ :=
  w.value * w.unitScale / nativeScale

/-- `BaseFilterCurve.interpolate`: convert the target wavelength to the
curve's native unit, then evaluate the interpolation object. -/
def interpolate (f : BaseFilterCurve) (w : WQuantity) : ℚ :=
  let converted_wavelength := convertToUnit w f.unitScale
  interp1d f.wavelength f.transmission_lambda converted_wavelength

/-! ## Magnitude and flux-density conversions

These use `10 ** x` and `np.log10`, embedded exactly over `ℝ` with the real
power and the base-10 logarithm. -/

/-- The part of a `BaseFilterCurve` the magnitude conversions consult: its AB
zero-point flux density `zp_ab_f_lambda` (a lazily computed positive physical
quantity; here carried as plain data). -/
structure PhotometricFilter where
  zp_ab_f_lambda : ℝ

/-- `BaseFilterCurve.convert_ab_magnitude_to_f_lambda`:
`10 ** (-0.4 * mag) * self.zp_ab_f_lambda`. -/
noncomputable def convert_ab_magnitude_to_f_lambda (f : PhotometricFilter)
    (mag : ℝ) : ℝ :=
  (10 : ℝ) ^ (-0.4 * mag) * f.zp_ab_f_lambda

/-- The final line of `calculate_ab_magnitude`, with the filter-averaged flux
density of the spectrum abstracted as an argument:
`-2.5 * np.log10(filtered_f_lambda / filter.zp_ab_f_lambda)`. -/
noncomputable def calculate_ab_magnitude_from_f_lambda (f : PhotometricFilter)
    (filtered_f_lambda : ℝ) : ℝ :=
  -2.5 * Real.logb 10 (filtered_f_lambda / f.zp_ab_f_lambda)

/-! ## `FilterSet`

A `FilterSet` holds its list of filters together with the
`current_filter_idx` slot that `__iter__` resets; `__iter__` returns the
object itself, so the cursor is shared state on the set.  The element type is
a parameter: the iteration protocol never inspects the filters. -/

/-- A `FilterSet`: a list of filters plus the iteration cursor. -/
structure FilterSet (α : Type) where
  filter_set : List α
  current_filter_idx : Nat
deriving DecidableEq

/-- `FilterSet.__iter__`: set `self.current_filter_idx = 0` and return
`self` (the very same object, carrying the shared cursor). -/
def FilterSet.iter {α : Type} (s : FilterSet α) : FilterSet α :=
  { s with current_filter_idx := 0 }

/-- `FilterSet.__next__`: read `filter_set[current_filter_idx]`; on
`IndexError` raise `StopIteration` (modelled as `none`), otherwise advance the
cursor and return the item.  The returned state is the same shared object. -/
def FilterSet.next {α : Type} (s : FilterSet α) : Option α × FilterSet α :=
  match s.filter_set.get? s.current_filter_idx with
  | none => (none, s)
  | some item => (some item, { s with current_filter_idx := s.current_filter_idx + 1 })

/-- Run the iteration protocol: call `__next__` until `StopIteration`, with a
fuel bound, collecting the yielded items and returning the final state of the
shared object. -/
def FilterSet.drain {α : Type} : Nat → FilterSet α → List α × FilterSet α
  | 0, s => ([], s)
  | fuel + 1, s =>
    match FilterSet.next s with
    | (none, s1) => ([], s1)
    | (some a, s1) =>
      let r := FilterSet.drain fuel s1
      (a :: r.1, r.2)

/-! ## Bulk magnitude conversions on a `FilterSet` -/

/-- The `ValueError` message of the length checks in `FilterSet`. -/
def lengthMismatchMsg : String :=
  "Filter set and magnitudes need to have the same number of items"

/-- `FilterSet.convert_ab_magnitudes_to_f_lambda`: raise `ValueError` when the
lengths differ, otherwise convert with the list comprehension
`[filter.convert_ab_magnitude_to_f_lambda(mag) for filter, mag in zip(...)]`. -/
noncomputable def convert_ab_magnitudes_to_f_lambda
    (s : FilterSet PhotometricFilter) (magnitudes : List ℝ) :
    Except PyError (List ℝ) :=
  if magnitudes.length ≠ s.filter_set.length then
    .error (.valueError lengthMismatchMsg)
  else
    .ok ((s.filter_set.zip magnitudes).map
      (fun fm => convert_ab_magnitude_to_f_lambda fm.1 fm.2))

/-- Python's three-sequence `zip`, truncating to the shortest input. -/
def zip3 {α β γ : Type} (as : List α) (bs : List β) (cs : List γ) :
    List (α × β × γ) :=
  as.zip (bs.zip cs)

/-- `FilterSet.convert_ab_magnitude_uncertainties_to_f_lambda_uncertainties`:
after the length check, build the fluxes at `mag + unc` and `mag - unc` for
each filter, then take `np.abs` of the 2-row stack minus the broadcast central
fluxes, giving the (positive, negative) uncertainty rows. -/
noncomputable def convert_ab_magnitude_uncertainties_to_f_lambda_uncertainties
    (s : FilterSet PhotometricFilter)
    (magnitudes magnitude_uncertainties : List ℝ) :
    Except PyError (List ℝ × List ℝ) :=
  if magnitudes.length ≠ s.filter_set.length then
    .error (.valueError lengthMismatchMsg)
  else
    let f_lambda_positive_uncertainties :=
      (zip3 s.filter_set magnitudes magnitude_uncertainties).map
        (fun x => convert_ab_magnitude_to_f_lambda x.1 (x.2.1 + x.2.2))
    let f_lambda_negative_uncertainties :=
      (zip3 s.filter_set magnitudes magnitude_uncertainties).map
        (fun x => convert_ab_magnitude_to_f_lambda x.1 (x.2.1 - x.2.2))
    match convert_ab_magnitudes_to_f_lambda s magnitudes with
    | .error e => .error e
    | .ok central =>
      .ok (List.zipWith (fun a c => |a - c|) f_lambda_positive_uncertainties central,
           List.zipWith (fun a c => |a - c|) f_lambda_negative_uncertainties central)

/-- The element-wise conversion exactly as the specification words it: the
inverse magnitude-to-flux conversion applied per filter, preserving order
(refinement reference for the code's zip-comprehension). -/
noncomputable def elementwiseAbConversionSpec :
    List PhotometricFilter → List ℝ → List ℝ
  | f :: fs, m :: ms =>
    convert_ab_magnitude_to_f_lambda f m :: elementwiseAbConversionSpec fs ms
  | _, _ => []

/-- The per-filter uncertainty pairs exactly as the specification words them:
`(|flux(m + u) - flux(m)|, |flux(m - u) - flux(m)|)` for each filter
(refinement reference for the code's stack-and-broadcast computation). -/
noncomputable def abUncertaintyPairsSpec :
    List PhotometricFilter → List ℝ → List ℝ → List (ℝ × ℝ)
  | f :: fs, m :: ms, u :: us =>
    (|convert_ab_magnitude_to_f_lambda f (m + u) - convert_ab_magnitude_to_f_lambda f m|,
     |convert_ab_magnitude_to_f_lambda f (m - u) - convert_ab_magnitude_to_f_lambda f m|) ::
      abUncertaintyPairsSpec fs ms us
  | _, _, _ => []

/-! ## `MagnitudeSet` and the `np.array(None)` default -/

/-- The Python value passed for `magnitude_uncertainties`: the default
`None`, or a list of floats. -/
inductive PyArg where
  | pyNoneArg
  | floatList (values : List ℚ)
deriving DecidableEq

/-- A numpy array as stored by `MagnitudeSet.__init__`: `np.array(None)` is a
0-dimensional object array holding `None`, while `np.array(list)` is an
ordinary 1-dimensional array. -/
inductive NpArray where
  | zeroDimObjectNone
  | ofList (values : List ℚ)
deriving DecidableEq

/-- `np.array` applied to the argument. -/
def np_array : PyArg → NpArray
  | .pyNoneArg => .zeroDimObjectNone
  | .floatList vs => .ofList vs

/-- A Python object slot that could hold the `None` singleton or an ndarray;
`x is None` is true exactly on the former. -/
inductive PyObj where
  | pyNone
  | ndarray (arr : NpArray)
deriving DecidableEq

/-- `np.array` always returns an ndarray object, never the `None` singleton. -/
def np_array_obj (a : PyArg) : PyObj := .ndarray (np_array a)

/-- The Python check `x is None`. -/
def PyObj.isNoneCheck : PyObj → Bool
  | .pyNone => true
  | .ndarray _ => false

/-- Integer indexing `x[i]` on the slot: `None` is not subscriptable, a
0-dimensional array rejects any index, a 1-dimensional array indexes its
values. -/
def PyObj.getitem : PyObj → Nat → Except PyError ℚ
  | .pyNone, _ => .error (.typeError "NoneType object is not subscriptable")
  | .ndarray .zeroDimObjectNone, _ =>
    .error (.indexError "too many indices for array: array is 0-dimensional")
  | .ndarray (.ofList vs), i =>
    match vs.get? i with
    | some v => .ok v
    | none => .error (.indexError "index out of bounds")

/-- State of a `MagnitudeSet` after `__init__` (the filter list stored by the
superclass constructor, plus the two numpy-converted attributes). -/
structure MagnitudeSet (α : Type) where
  filter_set : List α
  magnitudes : NpArray
  magnitude_uncertainties : PyObj
deriving DecidableEq

/-- `MagnitudeSet.__init__`: store `np.array(magnitudes)` and
`np.array(magnitude_uncertainties)`; the Python default for
`magnitude_uncertainties` is `None`, i.e. the argument `PyArg.pyNoneArg`. -/
def MagnitudeSet.init {α : Type} (filter_set : List α) (magnitudes : List ℚ)
    (magnitude_uncertainties : PyArg) : MagnitudeSet α :=
  { filter_set := filter_set
    magnitudes := np_array (.floatList magnitudes)
    magnitude_uncertainties := np_array_obj magnitude_uncertainties }

/-- What `__repr__` renders for one filter's uncertainty. -/
inductive UncDisplay where
  | nanPlaceholder
  | value (v : ℚ)
deriving DecidableEq

/-- The per-filter uncertainty expression inside `MagnitudeSet.__repr__`:
`np.nan if self.magnitude_uncertainties is None else
self.magnitude_uncertainties[i]`. -/
def MagnitudeSet.reprUncEntry {α : Type} (m : MagnitudeSet α) (i : Nat) :
    Except PyError UncDisplay :=
  if m.magnitude_uncertainties.isNoneCheck then .ok .nanPlaceholder
  else (m.magnitude_uncertainties.getitem i).map .value

/-- A cached votable whose source explicitly records a non-Angstrom
wavelength unit (`nm`). -/
def nmVOTable : FilterVOTable := ⟨[100, 200], [1, 1], some "nm", .PHOTON_COUNTER⟩

/-- A cache whose single entry is the nanometre-unit votable, stored at the
path of filter id `HST/WFPC2.F218W`. -/
def nmCache : FilterDataCache := ⟨[("HST/WFPC2/F218W.vot", nmVOTable)]⟩

/-! ## Helper lemmas -/

/-- Trapezoidal quadrature of the constant function `1` telescopes to the
width of the grid. -/
lemma trapz_ones (x0 : ℚ) (xs : List ℚ) :
    trapz (List.replicate (xs.length + 1) 1) (x0 :: xs) = xs.getLastD x0 - x0 := by
  induction xs generalizing x0 with
  | nil => simp [trapz]
  | cons x1 xs ih =>
    simp only [List.length_cons, List.replicate_succ, trapz, List.getLastD_cons]
    rw [show List.replicate (xs.length + 1) (1 : ℚ) = 1 :: List.replicate xs.length 1 from
      List.replicate_succ 1 _] at *
    have := ih x1
    simp only [List.replicate_succ] at this ⊢
    rw [this]
    ring

/-- Trapezoidal quadrature of the identity samples telescopes to the
difference of the squared endpoints over two. -/
lemma trapz_self (x0 : ℚ) (xs : List ℚ) :
    trapz (x0 :: xs) (x0 :: xs) = ((xs.getLastD x0) ^ 2 - x0 ^ 2) / 2 := by
  induction xs generalizing x0 with
  | nil => simp [trapz]
  | cons x1 xs ih =>
    simp only [trapz, List.getLastD_cons]
    rw [ih x1]
    ring

/-- Multiplying a list pointwise by all-ones transmission gives the list back. -/
lemma zipWith_mul_replicate_one (l : List ℚ) :
    List.zipWith (fun t w => t * w) (List.replicate l.length 1) l = l := by
  induction l with
  | nil => rfl
  | cons x xs ih => simp [List.replicate_succ, ih]

/-- The flat-transmission evaluations of `calculate_wavelength_delta`. -/
lemma calculate_wavelength_delta_flat_aux (grid : List ℚ) (h : grid ≠ [])
    (scale : ℚ) :
    calculate_wavelength_delta
        ⟨grid, List.replicate grid.length 1, .ENERGY_COUNTER, scale⟩ =
      grid.getLast h - grid.head h ∧
    calculate_wavelength_delta
        ⟨grid, List.replicate grid.length 1, .PHOTON_COUNTER, scale⟩ =
      ((grid.getLast h) ^ 2 - (grid.head h) ^ 2) / 2 := by
  match grid, h with
  | g0 :: gs, _ =>
    constructor
    · simp only [calculate_wavelength_delta, List.head_cons]
      rw [List.getLast_eq_getLastD]
      simpa using trapz_ones g0 gs
    · simp only [calculate_wavelength_delta, List.head_cons]
      rw [List.getLast_eq_getLastD]
      have hz := zipWith_mul_replicate_one (g0 :: gs)
      simp only [List.length_cons] at hz ⊢
      rw [hz]
      simpa using trapz_self g0 gs

/-- Membership through insertion into an abscissa-sorted list. -/
lemma mem_insertPairByX {a p : ℚ × ℚ} {l : List (ℚ × ℚ)} :
    a ∈ insertPairByX p l ↔ a = p ∨ a ∈ l := by
  induction l with
  | nil => simp [insertPairByX]
  | cons q qs ih =>
    simp only [insertPairByX]
    by_cases h : p.1 ≤ q.1
    · simp [h]
    · simp only [h, if_false, List.mem_cons, ih]
      tauto

/-- Sorting the sample points preserves membership. -/
lemma mem_sortPointsByX {a : ℚ × ℚ} {l : List (ℚ × ℚ)} :
    a ∈ sortPointsByX l ↔ a ∈ l := by
  induction l with
  | nil => simp [sortPointsByX]
  | cons p ps ih => simp [sortPointsByX, mem_insertPairByX, ih]

/-- `getLastD` picks an element of the corresponding cons list. -/
lemma getLastD_mem_cons {α : Type} (l : List α) (a : α) :
    l.getLastD a ∈ a :: l := by
  induction l generalizing a with
  | nil => simp
  | cons x xs ih =>
    simp only [List.getLastD_cons]
    have := ih x
    simp only [List.mem_cons] at this ⊢
    tauto

/-- A left fold with `min` bounds the seed and every list element from below. -/
lemma foldl_min_le (xs : List ℚ) (init : ℚ) :
    xs.foldl min init ≤ init ∧ ∀ y ∈ xs, xs.foldl min init ≤ y := by
  induction xs generalizing init with
  | nil => simp
  | cons z zs ih =>
    have h := ih (min init z)
    refine ⟨le_trans h.1 (min_le_left _ _), ?_⟩
    intro y hy
    rcases List.mem_cons.mp hy with rfl | hy
    · exact le_trans h.1 (min_le_right _ _)
    · exact h.2 y hy

/-- A left fold with `max` bounds the seed and every list element from above. -/
lemma le_foldl_max (xs : List ℚ) (init : ℚ) :
    init ≤ xs.foldl max init ∧ ∀ y ∈ xs, y ≤ xs.foldl max init := by
  induction xs generalizing init with
  | nil => simp
  | cons z zs ih =>
    have h := ih (max init z)
    refine ⟨le_trans (le_max_left _ _) h.1, ?_⟩
    intro y hy
    rcases List.mem_cons.mp hy with rfl | hy
    · exact le_trans (le_max_right _ _) h.1
    · exact h.2 y hy

/-- Below the minimum means below every element. -/
lemma lt_of_lt_listMin {l : List ℚ} {c : ℚ} (h : c < listMin l) :
    ∀ x ∈ l, c < x := by
  cases l with
  | nil => simp
  | cons x xs =>
    intro y hy
    rcases List.mem_cons.mp hy with rfl | hy
    · exact lt_of_lt_of_le h (foldl_min_le xs y).1
    · exact lt_of_lt_of_le h ((foldl_min_le xs x).2 y hy)

/-- Above the maximum means above every element. -/
lemma lt_of_listMax_lt {l : List ℚ} {c : ℚ} (h : listMax l < c) :
    ∀ x ∈ l, x < c := by
  cases l with
  | nil => simp
  | cons x xs =>
    intro y hy
    rcases List.mem_cons.mp hy with rfl | hy
    · exact lt_of_le_of_lt (le_foldl_max xs y).1 h
    · exact lt_of_le_of_lt ((le_foldl_max xs x).2 y hy) h

/-- Running the iteration protocol with enough fuel yields the suffix of the
filter list from the cursor on, and never changes the stored filter list. -/
lemma drain_spec {α : Type} (fuel : Nat) (s : FilterSet α)
    (hf : s.filter_set.length - s.current_filter_idx ≤ fuel) :
    (FilterSet.drain fuel s).1 = s.filter_set.drop s.current_filter_idx ∧
    (FilterSet.drain fuel s).2.filter_set = s.filter_set := by
  induction fuel generalizing s with
  | zero =>
    have : s.filter_set.length ≤ s.current_filter_idx := by omega
    simp [FilterSet.drain, List.drop_eq_nil_of_le this]
  | succ fuel ih =>
    rcases s with ⟨l, i⟩
    simp only [FilterSet.drain, FilterSet.next]
    cases hg : l.get? i with
    | none =>
      have hlen : l.length ≤ i := by
        rcases Nat.lt_or_ge i l.length with hlt | hge
        · rw [List.get?_eq_get hlt] at hg; cases hg
        · exact hge
      simp [List.drop_eq_nil_of_le hlen]
    | some a =>
      obtain ⟨hlt, hget⟩ := List.get?_eq_some.mp hg
      have ihres := ih ⟨l, i + 1⟩ (by simp only at hf ⊢; omega)
      simp only at ihres
      refine ⟨?_, ihres.2⟩
      simp only []
      rw [ihres.1]
      rw [List.drop_eq_getElem_cons hlt]
      congr 1
      symm
      simpa using hget

/-- The zip comprehension of `convert_ab_magnitudes_to_f_lambda` agrees with
the structural element-wise conversion. -/
lemma zip_map_elementwise (fs : List PhotometricFilter) (ms : List ℝ) :
    (fs.zip ms).map (fun fm => convert_ab_magnitude_to_f_lambda fm.1 fm.2) =
      elementwiseAbConversionSpec fs ms := by
  induction fs generalizing ms with
  | nil => cases ms <;> simp [elementwiseAbConversionSpec]
  | cons f fs ih =>
    cases ms with
    | nil => simp [elementwiseAbConversionSpec]
    | cons m ms => simp [elementwiseAbConversionSpec, ih]

/-- Characterization of `convert_ab_magnitudes_to_f_lambda` shared by the
length-check and uncertainty theorems. -/
lemma convert_ab_magnitudes_ite (s : FilterSet PhotometricFilter)
    (magnitudes : List ℝ) :
    convert_ab_magnitudes_to_f_lambda s magnitudes =
      if magnitudes.length = s.filter_set.length then
        .ok (elementwiseAbConversionSpec s.filter_set magnitudes)
      else .error (.valueError lengthMismatchMsg) := by
  unfold convert_ab_magnitudes_to_f_lambda
  by_cases h : magnitudes.length = s.filter_set.length
  · rw [if_pos h, if_neg (by simpa using h), zip_map_elementwise]
  · rw [if_neg h, if_pos h]

/-- The broadcast-and-subtract rows of the uncertainty computation fuse into
the per-filter absolute-difference pairs. -/
lemma uncertainty_rows_eq (fs : List PhotometricFilter) (ms us : List ℝ) :
    (List.zipWith (fun a c => |a - c|)
        ((zip3 fs ms us).map
          (fun x => convert_ab_magnitude_to_f_lambda x.1 (x.2.1 + x.2.2)))
        ((fs.zip ms).map (fun fm => convert_ab_magnitude_to_f_lambda fm.1 fm.2)),
     List.zipWith (fun a c => |a - c|)
        ((zip3 fs ms us).map
          (fun x => convert_ab_magnitude_to_f_lambda x.1 (x.2.1 - x.2.2)))
        ((fs.zip ms).map (fun fm => convert_ab_magnitude_to_f_lambda fm.1 fm.2))) =
      (abUncertaintyPairsSpec fs ms us).unzip := by
  induction fs generalizing ms us with
  | nil => cases ms <;> cases us <;> simp [zip3, abUncertaintyPairsSpec]
  | cons f fs ih =>
    cases ms with
    | nil => cases us <;> simp [zip3, abUncertaintyPairsSpec]
    | cons m ms =>
      cases us with
      | nil => simp [zip3, abUncertaintyPairsSpec]
      | cons u us =>
        have ihres := ih ms us
        simp only [zip3, List.zip_cons_cons, List.map_cons, List.zipWith_cons_cons,
          abUncertaintyPairsSpec, List.unzip_cons]
        rw [Prod.mk.injEq] at ihres ⊢
        constructor
        · rw [← ihres.1]
          rfl
        · rw [← ihres.2]
          rfl

/-! ## Claim theorems -/

/-- C1: against the source, a second `update_filter_data` run on a cache that
was fully synchronized by the first run against the very same remote index is
not a no-op: because the local index ids use `/` where the SVO ids use `.`
(`HST/WFPC2/F218W` versus `HST/WFPC2.F218W`), the equality check never fires,
so the second run removes the cached file, re-downloads it and returns `True`,
where the function's own contract promises `False` with no removals or
additions. -/
theorem update_filter_data_second_run_not_noop :
    update_filter_data ⟨[]⟩ svoIndexExample =
        .ok (true, ⟨["HST/WFPC2/F218W.vot"]⟩) ∧
    update_filter_data ⟨["HST/WFPC2/F218W.vot"]⟩ svoIndexExample =
        .ok (true, ⟨["HST/WFPC2/F218W.vot"]⟩) ∧
    load_local_filters_index ⟨["HST/WFPC2/F218W.vot"]⟩ = ["HST/WFPC2/F218W"] ∧
    ("HST/WFPC2/F218W" : String) ≠ "HST/WFPC2.F218W" := by
  decide

/-- C2 counterexample: loading an uncached filter raises the same exception
class (`IOError`) whether the filter id is present in the remote index
(`Spitzer/IRAC.I2`) or absent from it (`no/such.filter`); the code never
consults the remote index, so there is no `NotFoundError` versus
`NotCachedError` distinction. -/
theorem load_transmission_data_error_class_same :
    ("Spitzer/IRAC.I2" : String) ∈ svoRemoteIndexExample ∧
    ("no/such.filter" : String) ∉ svoRemoteIndexExample ∧
    loadErrorKind ⟨[]⟩ "Spitzer/IRAC.I2" = some .io ∧
    loadErrorKind ⟨[]⟩ "no/such.filter" = some .io := by
  decide

/-- C2 (amended): for every cache and every three-component filter id whose
votable file is absent, `load_transmission_data` raises one fixed `IOError`
naming the id and suggesting `download_transmission_data`; the error does not
depend on any remote index, which the load path never reads. -/
theorem load_transmission_data_uncached_raises_io_error
    (cache : FilterDataCache)
    (filter_id facility instrument filter_name : String)
    (hsplit : reSplitId filter_id = [facility, instrument, filter_name])
    (hmiss : lookupEntry cache.entries
      (filterPath facility instrument filter_name) = none) :
    load_transmission_data cache filter_id =
      .error (.ioError (loadMissingMsg filter_id)) := by
  unfold load_transmission_data
  rw [hsplit]
  simp only [hmiss]

/-- C2 witness: the amended theorem applied to the empty cache and
`Spitzer/IRAC.I2`. -/
theorem load_transmission_data_uncached_raises_io_error_witness :
    reSplitId "Spitzer/IRAC.I2" = ["Spitzer", "IRAC", "I2"] ∧
    lookupEntry (FilterDataCache.mk []).entries
      (filterPath "Spitzer" "IRAC" "I2") = none ∧
    load_transmission_data ⟨[]⟩ "Spitzer/IRAC.I2" =
      .error (.ioError (loadMissingMsg "Spitzer/IRAC.I2")) :=
  ⟨by decide, rfl,
    load_transmission_data_uncached_raises_io_error ⟨[]⟩ "Spitzer/IRAC.I2"
      "Spitzer" "IRAC" "I2" (by decide) rfl⟩

/-- C3: `calculate_wavelength_delta` dispatches on the detector type — the
trapezoidal integral of transmission times wavelength for a photon counter
and of transmission alone for an energy counter — and hence on an all-ones
transmission curve over a grid from `λ1` to `λ2` it evaluates to `λ2 - λ1`
for an energy counter and to `(λ2² - λ1²)/2` for a photon counter. -/
theorem calculate_wavelength_delta_dispatch_flat (grid : List ℚ)
    (h : grid ≠ []) (scale : ℚ) :
    (∀ f : BaseFilterCurve, f.detector_type = .PHOTON_COUNTER →
      calculate_wavelength_delta f =
        trapz (List.zipWith (fun t w => t * w) f.transmission_lambda f.wavelength)
          f.wavelength) ∧
    (∀ f : BaseFilterCurve, f.detector_type = .ENERGY_COUNTER →
      calculate_wavelength_delta f = trapz f.transmission_lambda f.wavelength) ∧
    calculate_wavelength_delta
        ⟨grid, List.replicate grid.length 1, .ENERGY_COUNTER, scale⟩ =
      grid.getLast h - grid.head h ∧
    calculate_wavelength_delta
        ⟨grid, List.replicate grid.length 1, .PHOTON_COUNTER, scale⟩ =
      ((grid.getLast h) ^ 2 - (grid.head h) ^ 2) / 2 := by
  refine ⟨?_, ?_, (calculate_wavelength_delta_flat_aux grid h scale).1,
    (calculate_wavelength_delta_flat_aux grid h scale).2⟩
  · intro f hf
    unfold calculate_wavelength_delta
    rw [hf]
  · intro f hf
    unfold calculate_wavelength_delta
    rw [hf]

/-- C3 witness: the dispatch theorem applied to the flat curve over
`[10, 20]`, giving `20 - 10 = 10` and `(20² - 10²)/2 = 150`. -/
theorem calculate_wavelength_delta_dispatch_flat_witness :
    (([10, 20] : List ℚ) ≠ []) ∧
    calculate_wavelength_delta
        ⟨[10, 20], List.replicate 2 1, .ENERGY_COUNTER, 1⟩ = 10 ∧
    calculate_wavelength_delta
        ⟨[10, 20], List.replicate 2 1, .PHOTON_COUNTER, 1⟩ = 150 := by
  refine ⟨by decide, ?_, ?_⟩
  · have h := (calculate_wavelength_delta_dispatch_flat [10, 20] (by decide) 1).2.2.1
    norm_num [List.getLast, List.head] at h
    exact h
  · have h := (calculate_wavelength_delta_dispatch_flat [10, 20] (by decide) 1).2.2.2
    norm_num [List.getLast, List.head] at h
    exact h

/-- C4: for every curve and target quantity whose value, converted to the
curve's native unit, lies strictly below the smallest or strictly above the
largest native wavelength sample, `interpolate` returns exactly `0`. -/
theorem interpolate_out_of_range_zero (f : BaseFilterCurve) (w : WQuantity)
    (h : convertToUnit w f.unitScale < listMin f.wavelength ∨
         listMax f.wavelength < convertToUnit w f.unitScale) :
    interpolate f w = 0 := by
  have h' : (∀ x ∈ f.wavelength, convertToUnit w f.unitScale < x) ∨
      (∀ x ∈ f.wavelength, x < convertToUnit w f.unitScale) :=
    h.imp (fun hl => lt_of_lt_listMin hl) (fun hr => lt_of_listMax_lt hr)
  unfold interpolate interp1d
  set c := convertToUnit w f.unitScale with hc
  cases hpts : sortPointsByX (f.wavelength.zip f.transmission_lambda) with
  | nil => simp
  | cons p rest =>
    have hmemx : ∀ q ∈ p :: rest, q.1 ∈ f.wavelength := by
      intro q hq
      rw [← hpts] at hq
      exact (List.of_mem_zip (mem_sortPointsByX.mp hq)).1
    rcases h' with hlt | hgt
    · have hp : c < p.1 := hlt _ (hmemx p (by simp))
      show (if c < p.1 then 0 else if (rest.getLastD p).1 < c then 0
        else evalSegments (p :: rest) c) = 0
      rw [if_pos hp]
    · have hp : p.1 < c := hgt _ (hmemx p (by simp))
      have hlast : (rest.getLastD p).1 < c :=
        hgt _ (hmemx _ (getLastD_mem_cons rest p))
      show (if c < p.1 then 0 else if (rest.getLastD p).1 < c then 0
        else evalSegments (p :: rest) c) = 0
      rw [if_neg (not_lt.mpr hp.le), if_pos hlast]

/-- C4 witness: the out-of-range theorem applied to the curve over `[10, 20]`
and the target `3` (below the range). -/
theorem interpolate_out_of_range_zero_witness :
    (convertToUnit ⟨3, 1⟩
        ((⟨[10, 20], [1, 1], .PHOTON_COUNTER, 1⟩ : BaseFilterCurve)).unitScale <
          listMin (⟨[10, 20], [1, 1], .PHOTON_COUNTER, 1⟩ : BaseFilterCurve).wavelength ∨
      listMax (⟨[10, 20], [1, 1], .PHOTON_COUNTER, 1⟩ : BaseFilterCurve).wavelength <
        convertToUnit ⟨3, 1⟩
          (⟨[10, 20], [1, 1], .PHOTON_COUNTER, 1⟩ : BaseFilterCurve).unitScale) ∧
    interpolate ⟨[10, 20], [1, 1], .PHOTON_COUNTER, 1⟩ ⟨3, 1⟩ = 0 :=
  ⟨Or.inl (by norm_num [convertToUnit, listMin]),
   interpolate_out_of_range_zero ⟨[10, 20], [1, 1], .PHOTON_COUNTER, 1⟩ ⟨3, 1⟩
     (Or.inl (by norm_num [convertToUnit, listMin]))⟩

/-- C5: for every filter with positive AB zero point and every magnitude,
converting to flux with `10^(-0.4 m) · zp` and back with
`-2.5·log10(flux/zp)` recovers the magnitude exactly. -/
theorem ab_magnitude_flux_roundtrip (f : PhotometricFilter) (mag : ℝ)
    (h : 0 < f.zp_ab_f_lambda) :
    calculate_ab_magnitude_from_f_lambda f
      (convert_ab_magnitude_to_f_lambda f mag) = mag := by
  unfold calculate_ab_magnitude_from_f_lambda convert_ab_magnitude_to_f_lambda
  rw [mul_div_assoc, div_self (ne_of_gt h), mul_one,
    Real.logb_rpow (by norm_num) (by norm_num)]
  ring

/-- C5 witness: the round trip at zero point `1` and magnitude `0`. -/
theorem ab_magnitude_flux_roundtrip_witness :
    (0 : ℝ) < (PhotometricFilter.mk 1).zp_ab_f_lambda ∧
    calculate_ab_magnitude_from_f_lambda (PhotometricFilter.mk 1)
      (convert_ab_magnitude_to_f_lambda (PhotometricFilter.mk 1) 0) = 0 :=
  ⟨by norm_num, ab_magnitude_flux_roundtrip (PhotometricFilter.mk 1) 0 (by norm_num)⟩

/-- C6 counterexample: on the two-element filter set, starting a second
traversal mid-way through a first one resets the shared cursor, so the second
traversal yields the first filter and then immediately stops: it visits
`[0]`, not every filter exactly once. -/
theorem filterset_interleaved_traversals_interfere :
    (let s1 := FilterSet.iter (⟨[0, 1], 0⟩ : FilterSet ℕ)
     let r1 := FilterSet.next s1
     let s2 := FilterSet.iter r1.2
     let r2 := FilterSet.next s2
     let r3 := FilterSet.next r2.2
     let r4 := FilterSet.next r3.2
     r1.1 = some 0 ∧ r2.1 = some 0 ∧ r3.1 = some 1 ∧ r4.1 = none ∧
       [r2.1, r4.1].filterMap id = [0] ∧ [r2.1, r4.1].filterMap id ≠ [0, 1]) := by
  decide

/-- C6 (amended): `__iter__` resets a single cursor stored on the `FilterSet`
itself and returns the same object, so a (non-interleaved) traversal visits
every filter exactly once in collection order, and iteration can always be
restarted — a fresh `__iter__` after a completed traversal yields the full
list again — but interleaved traversals share that one cursor (as the
counterexample shows) rather than receiving independent fresh cursors. -/
theorem filterset_iteration_ordered_restartable {α : Type} (s : FilterSet α)
    (fuel : Nat) (hf : s.filter_set.length ≤ fuel) :
    (FilterSet.drain fuel (FilterSet.iter s)).1 = s.filter_set ∧
    (FilterSet.drain fuel
      (FilterSet.iter (FilterSet.drain fuel (FilterSet.iter s)).2)).1 =
        s.filter_set := by
  have h1 := drain_spec fuel (FilterSet.iter s)
    (show s.filter_set.length - 0 ≤ fuel by omega)
  have hlen2 : (FilterSet.drain fuel (FilterSet.iter s)).2.filter_set =
      s.filter_set := h1.2
  have h2 := drain_spec fuel
    (FilterSet.iter (FilterSet.drain fuel (FilterSet.iter s)).2)
    (show (FilterSet.drain fuel (FilterSet.iter s)).2.filter_set.length - 0 ≤ fuel by
      rw [hlen2]; omega)
  exact ⟨h1.1, h2.1.trans hlen2⟩

/-- C6 witness: ordered, restartable traversal of the two-element set. -/
theorem filterset_iteration_ordered_restartable_witness :
    ((⟨[0, 1], 0⟩ : FilterSet ℕ).filter_set.length ≤ 2) ∧
    ((FilterSet.drain 2 (FilterSet.iter (⟨[0, 1], 0⟩ : FilterSet ℕ))).1 = [0, 1] ∧
     (FilterSet.drain 2
       (FilterSet.iter (FilterSet.drain 2
         (FilterSet.iter (⟨[0, 1], 0⟩ : FilterSet ℕ))).2)).1 = [0, 1]) :=
  ⟨by decide, filterset_iteration_ordered_restartable ⟨[0, 1], 0⟩ 2 (by decide)⟩

/-- C7: the uncertainty conversion checks the magnitude length and then
returns, per filter, exactly the pair
`(|flux(m + u) - flux(m)|, |flux(m - u) - flux(m)|)` obtained by re-evaluating
the magnitude-to-flux conversion at `m ± u` and subtracting the central flux —
the unzipped rows of the per-filter pairs, not a derivative-based formula. -/
theorem convert_ab_magnitude_uncertainties_by_reevaluation
    (s : FilterSet PhotometricFilter)
    (magnitudes magnitude_uncertainties : List ℝ) :
    convert_ab_magnitude_uncertainties_to_f_lambda_uncertainties s magnitudes
        magnitude_uncertainties =
      if magnitudes.length = s.filter_set.length then
        .ok (abUncertaintyPairsSpec s.filter_set magnitudes
              magnitude_uncertainties).unzip
      else .error (.valueError lengthMismatchMsg) := by
  unfold convert_ab_magnitude_uncertainties_to_f_lambda_uncertainties
  by_cases h : magnitudes.length = s.filter_set.length
  · rw [if_pos h, if_neg (by simpa using h), convert_ab_magnitudes_ite s magnitudes,
      if_pos h, ← zip_map_elementwise, ← uncertainty_rows_eq]
  · rw [if_neg h, if_pos h]

/-- C8 counterexample: the cached source votable for `HST/WFPC2.F218W`
explicitly records the wavelength unit `nm`, yet `load_filter` tags the
loaded wavelengths with `angstrom` (and `angstrom ≠ nm`): the recorded unit
is never consulted. -/
theorem load_filter_ignores_recorded_unit :
    lookupEntry nmCache.entries "HST/WFPC2/F218W.vot" = some nmVOTable ∧
    nmVOTable.wavelengthUnit = some "nm" ∧
    (load_filter nmCache "HST/WFPC2.F218W").map
      (fun r => (r.wavelengthUnit, r.filter_id)) =
        .ok ("angstrom", "HST/WFPC2.F218W") ∧
    ("angstrom" : String) ≠ "nm" := by
  decide

/-- C8 (amended): whenever `load_filter` succeeds it interprets the
wavelengths in Angstrom — unconditionally, whatever unit the cached source
table records — and sets `filter_id` to the requested id. -/
theorem load_filter_always_angstrom_with_filter_id (cache : FilterDataCache)
    (filter_id : String) :
    (load_filter cache filter_id).map (fun r => (r.wavelengthUnit, r.filter_id)) =
      (load_transmission_data cache filter_id).map
        (fun _ => ("angstrom", filter_id)) := by
  unfold load_filter
  cases load_transmission_data cache filter_id with
  | error e => rfl
  | ok v =>
    rcases v with ⟨⟨wl, tr⟩, dt⟩
    rfl

/-- C9: `convert_ab_magnitudes_to_f_lambda` raises the length-mismatch
`ValueError` (performing no conversion) exactly when the magnitude count
differs from the filter count, and otherwise applies the inverse
magnitude-to-flux conversion element-wise in collection order. -/
theorem convert_ab_magnitudes_length_check_elementwise
    (s : FilterSet PhotometricFilter) (magnitudes : List ℝ) :
    convert_ab_magnitudes_to_f_lambda s magnitudes =
      if magnitudes.length = s.filter_set.length then
        .ok (elementwiseAbConversionSpec s.filter_set magnitudes)
      else .error (.valueError lengthMismatchMsg) :=
  convert_ab_magnitudes_ite s magnitudes

/-- C10: a `MagnitudeSet` constructed with the default
`magnitude_uncertainties=None` stores `np.array(None)` — an ndarray, never
the `None` singleton — so every later `is None` check (including the one in
`__repr__`) is false, and indexing the attribute raises `IndexError` instead
of producing a NaN placeholder. -/
theorem magnitude_set_default_uncertainties_never_none (α : Type)
    (filter_set : List α) (magnitudes : List ℚ) (i : Nat) :
    (MagnitudeSet.init filter_set magnitudes PyArg.pyNoneArg).magnitude_uncertainties ≠
        PyObj.pyNone ∧
    PyObj.isNoneCheck
      (MagnitudeSet.init filter_set magnitudes
        PyArg.pyNoneArg).magnitude_uncertainties = false ∧
    PyObj.getitem
      (MagnitudeSet.init filter_set magnitudes
        PyArg.pyNoneArg).magnitude_uncertainties i =
        .error (.indexError "too many indices for array: array is 0-dimensional") ∧
    MagnitudeSet.reprUncEntry (MagnitudeSet.init filter_set magnitudes PyArg.pyNoneArg) i =
      .error (.indexError "too many indices for array: array is 0-dimensional") := by
  refine ⟨?_, rfl, rfl, rfl⟩
  intro hc
  simp [MagnitudeSet.init, np_array_obj, np_array] at hc

end Wsynphot
